import Mathlib

/-!
Verification of the MSSQL dialect backend (ibis/backends/mssql/__init__.py):
schema/type inference from driver metadata, the transactional
create-table/overwrite protocol, transaction discipline, in-memory table
registration, and boolean result post-processing, shallowly embedded.
-/

namespace MSSQL

/-! ## Semantic types (ibis.expr.datatypes, as used by this backend) -/

/-- The framework's semantic type, a tagged variant carrying a nullable flag
(mirrors the `dt` classes referenced by the backend). -/
inductive DType where
  | Boolean (nullable : Bool)
  | Int8 (nullable : Bool)
  | Int16 (nullable : Bool)
  | Int32 (nullable : Bool)
  | Int64 (nullable : Bool)
  | Float32 (nullable : Bool)
  | Float64 (nullable : Bool)
  | Decimal (precision scale : Option Nat) (nullable : Bool)
  | Timestamp (scale : Option Nat) (nullable : Bool)
  | Date (nullable : Bool)
  | Time (nullable : Bool)
  | String (nullable : Bool)
  | Binary (nullable : Bool)
  | UUID (nullable : Bool)
  | Null (nullable : Bool)
  | Unknown (nullable : Bool)
  deriving DecidableEq, Repr

/-- Nullable flag carried by every semantic type. -/
def DType.nullable : DType → Bool
  | .Boolean n | .Int8 n | .Int16 n | .Int32 n | .Int64 n
  | .Float32 n | .Float64 n | .Decimal _ _ n | .Timestamp _ n
  | .Date n | .Time n | .String n | .Binary n | .UUID n
  | .Null n | .Unknown n => n

/-- Mirrors `DataType.is_decimal()`. -/
def DType.is_decimal : DType → Bool
  | .Decimal _ _ _ => true
  | _ => false

/-- Mirrors `DataType.is_timestamp()`. -/
def DType.is_timestamp : DType → Bool
  | .Timestamp _ _ => true
  | _ => false

/-- Mirrors `DataType.is_boolean()`. -/
def DType.is_boolean : DType → Bool
  | .Boolean _ => true
  | _ => false

/-- Mirrors `DataType.is_null()`. -/
def DType.is_null : DType → Bool
  | .Null _ => true
  | _ => false

def DType.isFloat64 : DType → Bool
  | .Float64 _ => true
  | _ => false

def DType.isFloat32 : DType → Bool
  | .Float32 _ => true
  | _ => false

/-- Mirrors `newtyp.copy(precision=..., scale=...)` on a decimal type:
replaces precision and scale, keeps the nullable flag; identity on other
variants (the backend only calls it after an `is_decimal()` check). -/
def DType.copyDecimal : DType → Option Nat → Option Nat → DType
  | .Decimal _ _ n, p, s => .Decimal p s n
  | t, _, _ => t

/-- Mirrors `newtyp.copy(scale=...)` on a timestamp type: replaces the scale,
keeps the nullable flag; identity on other variants. -/
def DType.copyTimestampScale : DType → Option Nat → DType
  | .Timestamp _ n, s => .Timestamp s n
  | t, _ => t

/-- Modelled from the spec: the dialect type-string table
(`compiler.type_mapper.from_string`, an external collaborator outside this
source slice) maps an MSSQL type name to a provisional semantic type,
threading the `nullable` flag through. -/
def from_string (s : String) (nullable : Bool) : DType :=
  match s with
  | "bit" => .Boolean nullable
  | "tinyint" => .Int8 nullable
  | "smallint" => .Int16 nullable
  | "int" => .Int32 nullable
  | "bigint" => .Int64 nullable
  | "real" => .Float32 nullable
  | "float" => .Float64 nullable
  | "decimal" => .Decimal none none nullable
  | "numeric" => .Decimal none none nullable
  | "money" => .Decimal none none nullable
  | "smallmoney" => .Decimal none none nullable
  | "datetime" => .Timestamp none nullable
  | "datetime2" => .Timestamp none nullable
  | "smalldatetime" => .Timestamp none nullable
  | "date" => .Date nullable
  | "time" => .Time nullable
  | "char" => .String nullable
  | "varchar" => .String nullable
  | "nchar" => .String nullable
  | "nvarchar" => .String nullable
  | "text" => .String nullable
  | "ntext" => .String nullable
  | "binary" => .Binary nullable
  | "varbinary" => .Binary nullable
  | "image" => .Binary nullable
  | "uniqueidentifier" => .UUID nullable
  | _ => .Unknown nullable

/-! ## Ordered mappings (Python `dict` insertion semantics) -/

/-- `mapping[k] = v` on a Python dict: an existing key keeps its position and
gets the new value; a fresh key is appended at the end. -/
def dictInsert {α : Type} (m : List (String × α)) (k : String) (v : α) :
    List (String × α) :=
  if m.any (fun p => p.1 == k) then
    m.map (fun p => if p.1 == k then (k, v) else p)
  else m ++ [(k, v)]

/-- An ordered column-name-to-type mapping (`sch.Schema` built from a dict). -/
abbrev Schema := List (String × DType)

/-- Errors surfaced by the backend. -/
inductive BackendError where
  | tableNotFound (fqn : String)
  | validationError (msg : String)
  | unsupportedOperation (msg : String)
  | typeError (msg : String)
  deriving DecidableEq, Repr

/-! ## Table introspection (`get_schema`) -/

/-- One row fetched from the `information_schema.columns` query issued by
`get_schema`: (column_name, data_type, is_nullable, numeric_precision,
numeric_scale, datetime_precision). -/
structure MetaRow where
  column_name : String
  data_type : String
  is_nullable : String
  numeric_precision : Option Nat
  numeric_scale : Option Nat
  datetime_precision : Option Nat
  deriving DecidableEq, Repr

/-- The per-row body of the loop in `get_schema` (lines 171-190): parse the
type string, disambiguate `float` by numeric precision, then overwrite
decimal precision/scale and timestamp scale from the metadata row. -/
def processMetaRow (r : MetaRow) : DType :=
  let newtyp := from_string r.data_type (r.is_nullable == "YES")
  if r.data_type == "float" then
    (if r.numeric_precision == some 53 then DType.Float64 else DType.Float32)
      newtyp.nullable
  else if newtyp.is_decimal then
    newtyp.copyDecimal r.numeric_precision r.numeric_scale
  else if newtyp.is_timestamp then
    newtyp.copyTimestampScale r.datetime_precision
  else
    newtyp

/-- The mapping built by `get_schema` from the fetched metadata rows. -/
def inferMeta (meta : List MetaRow) : Schema :=
  meta.foldl (fun m r => dictInsert m r.column_name (processMetaRow r)) []

/-- Mirrors `sg.table(name, db=database, catalog=catalog).sql(self.dialect)`:
the fully-qualified name used in the not-found error message. -/
def renderFqn (name : String) (database catalog : Option String) : String :=
  match catalog, database with
  | none, none => name
  | none, some db => db ++ "." ++ name
  | some c, none => c ++ ".." ++ name
  | some c, some db => c ++ "." ++ db ++ "." ++ name

/-- `Backend.get_schema` (lines 135-192), with the rows fetched from the
driver passed in explicitly: zero rows raises `Table not found` naming the
fully-qualified table; otherwise the schema is inferred row by row. -/
def get_schema (meta : List MetaRow) (name : String)
    (database catalog : Option String) : Except BackendError Schema :=
  if meta.isEmpty then
    .error (.tableNotFound (renderFqn name database catalog))
  else
    .ok (inferMeta meta)

/-! ## Query introspection (`_get_schema_using_query`) -/

/-- One row fetched from `EXEC sp_describe_first_result_set`: the backend
unpacks positions (is_hidden, column_ordinal, name, is_nullable, _,
system_type_name, _, precision, scale, *rest) and sorts on position 1. -/
structure QueryRow where
  is_hidden : Bool
  column_ordinal : Nat
  name : String
  is_nullable : Bool
  system_type_id : Nat
  system_type_name : String
  max_length : Nat
  precision : Option Nat
  scale : Option Nat
  deriving DecidableEq, Repr

/-- The per-row body of the loop in `_get_schema_using_query`
(lines 213-225). -/
def processQueryRow (q : QueryRow) : DType :=
  let newtyp := from_string q.system_type_name q.is_nullable
  if q.system_type_name == "float" then
    (if q.precision == some 53 then DType.Float64 else DType.Float32)
      newtyp.nullable
  else if newtyp.is_decimal then
    newtyp.copyDecimal q.precision q.scale
  else if newtyp.is_timestamp then
    newtyp.copyTimestampScale q.scale
  else
    newtyp

/-- The sort key relation of `sorted(rows, key=itemgetter(1))`. -/
def ordLE (a b : QueryRow) : Prop := a.column_ordinal ≤ b.column_ordinal

instance : DecidableRel ordLE := fun a b =>
  inferInstanceAs (Decidable (a.column_ordinal ≤ b.column_ordinal))

instance : IsTotal QueryRow ordLE :=
  ⟨fun a b => Nat.le_total a.column_ordinal b.column_ordinal⟩

instance : IsTrans QueryRow ordLE := ⟨fun _ _ _ => Nat.le_trans⟩

/-- `sorted(rows, key=itemgetter(1))`: a stable sort on the column ordinal
(insertion sort is stable, matching Python's `sorted`). -/
def sortRows (rows : List QueryRow) : List QueryRow :=
  List.insertionSort ordLE rows

/-- The mapping built by `_get_schema_using_query` from the fetched rows. -/
def inferQuery (rows : List QueryRow) : Schema :=
  (sortRows rows).foldl (fun m q => dictInsert m q.name (processQueryRow q)) []

/-- `Backend._get_schema_using_query` (lines 194-227), with the rows fetched
from the driver passed in explicitly: the rows are sorted by ordinal and
folded into a schema; there is no empty-rows check. -/
def get_schema_using_query (rows : List QueryRow) : Except BackendError Schema :=
  .ok (inferQuery rows)

/-- The ordinal reported for the (unique) row of a given column name. -/
def ordinalFor (rows : List QueryRow) (k : String) : Nat :=
  ((rows.find? (fun x => x.name == k)).map QueryRow.column_ordinal).getD 0

/-! ## Values and statements -/

/-- A driver-level value as seen through pyodbc rows. -/
inductive Val where
  | vbool (b : Bool)
  | vint (n : Int)
  | vstr (s : String)
  | vnull
  deriving DecidableEq, Repr

/-- A column definition as emitted into `CREATE TABLE`: name, type, and
whether a `NOT NULL` constraint is attached (emitted iff non-nullable). -/
structure ColDef where
  colname : String
  kind : DType
  notNull : Bool
  deriving DecidableEq, Repr

/-- Mirrors the `column_defs` comprehensions in `create_table` and
`_register_in_memory_table`. -/
def columnDefs (schema : Schema) : List ColDef :=
  schema.map (fun p => ⟨p.1, p.2, !p.2.nullable⟩)

/-- The statements the backend issues to the driver for table lifecycle. -/
inductive Stmt where
  | createTable (name : String) (cols : List ColDef)
  | insertFrom (name : String) (rows : List (List Val))
  | insertMany (name : String) (cols : List String) (rows : List (List Val))
  | dropIfExists (name : String)
  | rename (old new : String)
  deriving DecidableEq, Repr

/-! ## Server state and statement semantics

Modelled from the spec: the external SQL Server executes each emitted
statement against its catalog — `CREATE TABLE` fails on a duplicate name,
`INSERT` appends rows to an existing table, `DROP TABLE IF EXISTS` removes
the table when present, and `sp_rename` moves an existing table to a
non-existing name. -/

/-- The server catalog: an association of table name to stored rows. -/
abbrev DB := List (String × List (List Val))

def dbExists (db : DB) (k : String) : Bool := db.any (fun p => p.1 == k)

def dbLookup (db : DB) (k : String) : Option (List (List Val)) :=
  match db with
  | [] => none
  | p :: rest => if p.1 == k then some p.2 else dbLookup rest k

def dbRemove (db : DB) (k : String) : DB := db.filter (fun p => !(p.1 == k))

def dbAppendRows (db : DB) (k : String) (rows : List (List Val)) : DB :=
  db.map (fun p => if p.1 == k then (p.1, p.2 ++ rows) else p)

/-- One statement executed by the server (modelled from the spec). -/
def execStmt (db : DB) : Stmt → Except String DB
  | .createTable name _ =>
      if dbExists db name then .error "There is already an object named ..."
      else .ok (db ++ [(name, [])])
  | .insertFrom name rows =>
      if dbExists db name then .ok (dbAppendRows db name rows)
      else .error "Invalid object name"
  | .insertMany name _ rows =>
      if dbExists db name then .ok (dbAppendRows db name rows)
      else .error "Invalid object name"
  | .dropIfExists name => .ok (dbRemove db name)
  | .rename old new =>
      match dbLookup db old with
      | none => .error "sp_rename: source object does not exist"
      | some rows =>
          if dbExists db new then .error "sp_rename: destination exists"
          else .ok (dbRemove db old ++ [(new, rows)])

/-- Executes a statement list left to right, stopping at the first error. -/
def execStmts (db : DB) : List Stmt → Except String DB
  | [] => .ok db
  | s :: rest =>
      match execStmt db s with
      | .error e => .error e
      | .ok db' => execStmts db' rest

/-! ## `create_table` (lines 436-533) -/

/-- The arguments of `Backend.create_table` that drive its control flow.
`obj` is the source relation, already compiled to the row set the wrapped
`INSERT ... SELECT` produces; `obj_schema` is that relation's schema
(`table.schema()`), used when no explicit `schema` is given. -/
structure CreateTableReq where
  name : String
  obj : Option (List (List Val))
  obj_schema : Schema
  schema : Option Schema
  database : Option String
  temp : Bool
  overwrite : Bool

/-- `Backend.create_table`, embedded as the statement sequence it issues to
the driver. `current_database` is the connection's current database and
`temp_name` the value of `util.gen_name(...)` (fresh by construction in the
source; freshness is a hypothesis in the theorems). Validation errors are
raised before any statement is built or issued. -/
def create_table (req : CreateTableReq) (current_database temp_name : String) :
    Except BackendError (List Stmt) :=
  if req.obj.isNone && req.schema.isNone then
    .error (.validationError "Either obj or schema must be specified")
  else if req.database.isSome && req.database != some current_database then
    .error (.unsupportedOperation
      "Creating tables in other databases is not supported by Postgres")
  else
    let tname := if req.overwrite then temp_name else req.name
    let cols := columnDefs (req.schema.getD req.obj_schema)
    let createS := [Stmt.createTable tname cols]
    let insertS :=
      match req.obj with
      | some rows => [Stmt.insertFrom tname rows]
      | none => []
    let overwriteS :=
      if req.overwrite then
        [Stmt.dropIfExists req.name, Stmt.rename tname req.name]
      else []
    .ok (createS ++ insertS ++ overwriteS)

/-- Statements actually issued to the driver by a `create_table` call: none
at all when the call raises before reaching the driver. -/
def issuedStmts (r : Except BackendError (List Stmt)) : List Stmt :=
  match r with
  | .error _ => []
  | .ok s => s

/-! ## Transaction discipline (`begin`, lines 249-261, and `raw_sql`,
lines 272-287) -/

/-- The connection: statements committed so far, and statements executed in
the current (not yet committed) implicit transaction. -/
structure Conn where
  committed : List Stmt
  pending : List Stmt
  deriving DecidableEq, Repr

/-- `con.commit()`. -/
def Conn.commit (c : Conn) : Conn := ⟨c.committed ++ c.pending, []⟩

/-- `con.rollback()`: discards the uncommitted statements. -/
def Conn.rollback (c : Conn) : Conn := ⟨c.committed, []⟩

/-- `Backend.begin`: runs the body on a fresh cursor; on success commits, on
any raised error rolls back and re-raises that same error. The body returns
the connection as mutated by its `cur.execute` calls plus either a value or
the raised error. -/
def begin {ε α : Type} (body : Conn → Conn × Except ε α) (c : Conn) :
    Conn × Except ε α :=
  match body c with
  | (c', .error e) => (c'.rollback, .error e)
  | (c', .ok a) => (c'.commit, .ok a)

/-- `cur.execute(q)` against a driver that either accepts the statement or
raises: on success the statement joins the pending transaction. -/
def cursorExecute {ε : Type} (driver : Stmt → Except ε Unit) (c : Conn)
    (q : Stmt) : Conn × Except ε Unit :=
  match driver q with
  | .ok _ => (⟨c.committed, c.pending ++ [q]⟩, .ok ())
  | .error e => (c, .error e)

/-- `Backend.raw_sql`: execute one statement; commit on success, roll back
and re-raise the same error on failure. -/
def raw_sql {ε : Type} (driver : Stmt → Except ε Unit) (c : Conn) (q : Stmt) :
    Conn × Except ε Unit :=
  match cursorExecute driver c q with
  | (c', .ok _) => (c'.commit, .ok ())
  | (c', .error e) => (c'.rollback, .error e)

/-! ## `_register_in_memory_table` (lines 535-585) -/

/-- An in-memory table operation: generated relation name, schema, and the
data frame rows. -/
structure MemTableOp where
  name : String
  schema : Schema
  data : List (List Val)

/-- `Backend._register_in_memory_table`, embedded as the statements issued
against the driver given the current table listing (`self.list_tables()`):
null-typed columns are rejected first; an already-registered name issues no
statements; otherwise the table is created and, when the frame is
non-empty, filled with one `executemany` insert. -/
def register_in_memory_table (tables : List String) (op : MemTableOp) :
    Except BackendError (List String × List Stmt) :=
  if (op.schema.filter (fun p => p.2.is_null)).isEmpty = false then
    .error (.typeError "MS SQL cannot yet reliably handle null typed columns")
  else if op.name ∈ tables then
    .ok (tables, [])
  else
    let create := Stmt.createTable op.name (columnDefs op.schema)
    let inserts :=
      if op.data.isEmpty then []
      else [Stmt.insertMany op.name (op.schema.map Prod.fst) op.data]
    .ok (tables ++ [op.name], create :: inserts)

/-! ## Result post-processing (`_to_sqlglot`, lines 587-600, and
`_cursor_batches`, lines 602-617) -/

/-- The keys of the `conversions` dict built in `_to_sqlglot`: exactly the
boolean-typed output columns, which get wrapped in
`ibis.ifelse(col, 1, 0).cast("boolean")`. -/
def toSqlglotConversions (schema : Schema) : List String :=
  (schema.filter (fun p => p.2.is_boolean)).map Prod.fst

/-- Modelled from the spec: server-side evaluation of the compiled
`IIF(col, 1, 0)` cast wrapper on a stored boolean value yields the bit
1 or 0. -/
def castOnWrite (b : Bool) : Int := if b then 1 else 0

/-- Modelled from the spec: the driver representations a fetched bit value
may take — a native boolean on some paths, a small integer code on others. -/
def driverReprs (bit : Int) : List Val := [.vbool (bit != 0), .vint bit]

/-- Python truthiness, `bool(value)`, on driver values. -/
def truthy : Val → Bool
  | .vbool b => b
  | .vint n => n != 0
  | .vstr s => s != ""
  | .vnull => false

/-- The `process_value` closure in `_cursor_batches`: coerce via truthiness
iff the column's semantic type is boolean. -/
def process_value (value : Val) (dtype : DType) : Val :=
  if dtype.is_boolean then .vbool (truthy value) else value

/-- One row of a fetched batch after `_cursor_batches` post-processing:
`tuple(map(process_value, row, types))`. -/
def processRow (row : List Val) (types : List DType) : List Val :=
  List.zipWith process_value row types

/-! ## Helper lemmas -/

theorem from_string_nullable (s : String) (n : Bool) :
    (from_string s n).nullable = n := by
  unfold from_string
  split <;> rfl

theorem copyDecimal_nullable (t : DType) (p s : Option Nat) :
    (t.copyDecimal p s).nullable = t.nullable := by
  cases t <;> rfl

theorem copyTimestampScale_nullable (t : DType) (s : Option Nat) :
    (t.copyTimestampScale s).nullable = t.nullable := by
  cases t <;> rfl

theorem beq_false_of_ne {s t : String} (h : s ≠ t) : (s == t) = false := by
  simpa using h

theorem decimal_from_string_ne_float {s : String} {n : Bool} {p q : Option Nat}
    {m : Bool} (h : from_string s n = .Decimal p q m) : s ≠ "float" := by
  intro hs
  subst hs
  simp [from_string] at h

theorem timestamp_from_string_ne_float {s : String} {n : Bool} {q : Option Nat}
    {m : Bool} (h : from_string s n = .Timestamp q m) : s ≠ "float" := by
  intro hs
  subst hs
  simp [from_string] at h

theorem nullable_float_ite (c : Prop) [Decidable c] (n : Bool) :
    ((if c then DType.Float64 else DType.Float32) n).nullable = n := by
  split <;> rfl

theorem processMetaRow_nullable (r : MetaRow) :
    (processMetaRow r).nullable = (r.is_nullable == "YES") := by
  unfold processMetaRow
  dsimp only
  split
  · rw [nullable_float_ite, from_string_nullable]
  · split
    · rw [copyDecimal_nullable, from_string_nullable]
    · split
      · rw [copyTimestampScale_nullable, from_string_nullable]
      · rw [from_string_nullable]

theorem processQueryRow_nullable (q : QueryRow) :
    (processQueryRow q).nullable = q.is_nullable := by
  unfold processQueryRow
  dsimp only
  split
  · rw [nullable_float_ite, from_string_nullable]
  · split
    · rw [copyDecimal_nullable, from_string_nullable]
    · split
      · rw [copyTimestampScale_nullable, from_string_nullable]
      · rw [from_string_nullable]

theorem mem_dictInsert {α : Type} {m : List (String × α)} {k : String} {v : α}
    {kt : String × α} (h : kt ∈ dictInsert m k v) : kt ∈ m ∨ kt = (k, v) := by
  unfold dictInsert at h
  split at h
  · rcases List.mem_map.mp h with ⟨p, hp, hpe⟩
    by_cases hk : p.1 == k
    · right
      rw [if_pos hk] at hpe
      exact hpe.symm
    · left
      rw [if_neg hk] at hpe
      exact hpe ▸ hp
  · rcases List.mem_append.mp h with hm | he
    · exact .inl hm
    · exact .inr (List.mem_singleton.mp he)

theorem mem_foldl_dictInsert {β : Type} (key : β → String) (val : β → DType)
    (l : List β) (acc : Schema) (kt : String × DType)
    (h : kt ∈ l.foldl (fun m r => dictInsert m (key r) (val r)) acc) :
    kt ∈ acc ∨ ∃ r, r ∈ l ∧ kt = (key r, val r) := by
  induction l generalizing acc with
  | nil => exact .inl h
  | cons r rest ih =>
    rw [List.foldl_cons] at h
    rcases ih _ h with hacc | ⟨r', hr', he⟩
    · rcases mem_dictInsert hacc with hm | he
      · exact .inl hm
      · exact .inr ⟨r, List.mem_cons_self r rest, he⟩
    · exact .inr ⟨r', List.mem_cons_of_mem _ hr', he⟩

/-! ## Claim C2 (corrected) -/

/-- C2 counterexample: the claim says query introspection that fetches zero
rows raises a distinct error rather than returning normally, but
`_get_schema_using_query` has no empty-rows check — on zero fetched rows it
returns an empty schema normally. -/
theorem query_introspection_zero_rows_returns_normally :
    get_schema_using_query [] = .ok [] := rfl

/-- C2 amended: table introspection that fetches zero metadata rows raises a
not-found error naming the fully-qualified table; query introspection that
fetches zero rows returns an empty schema normally rather than raising. -/
theorem introspection_zero_rows (name : String) (database catalog : Option String)
    (rows : List QueryRow) :
    get_schema [] name database catalog =
      .error (.tableNotFound (renderFqn name database catalog)) ∧
    (get_schema_using_query rows).isOk = true := by
  constructor
  · rfl
  · rfl

/-! ## Claim C3 (confirmed) -/

/-- C3: in both entry points, a metadata row whose reported type string is
"float" yields Float64 when the reported numeric precision equals 53 and
Float32 for every other precision value (the nullable flag being threaded
from the row). -/
theorem float_precision_disambiguation (r : MetaRow) (q : QueryRow)
    (hr : r.data_type = "float") (hq : q.system_type_name = "float") :
    processMetaRow r =
      (if r.numeric_precision = some 53 then DType.Float64 else DType.Float32)
        (r.is_nullable == "YES") ∧
    processQueryRow q =
      (if q.precision = some 53 then DType.Float64 else DType.Float32)
        q.is_nullable := by
  constructor
  · unfold processMetaRow
    rw [if_pos (by simp [hr])]
    by_cases h : r.numeric_precision = some 53 <;>
      simp [h, hr, from_string_nullable]
  · unfold processQueryRow
    rw [if_pos (by simp [hq])]
    by_cases h : q.precision = some 53 <;>
      simp [h, hq, from_string_nullable]

/-- C3 witness: a float column with precision 53 infers Float64 and one with
precision 24 infers Float32, on both paths. -/
theorem float_precision_disambiguation_witness :
    processMetaRow ⟨"x", "float", "YES", some 53, none, none⟩ =
      (if (some 53 : Option Nat) = some 53 then DType.Float64 else DType.Float32)
        ("YES" == "YES") ∧
    processQueryRow ⟨false, 1, "y", false, 62, "float", 4, some 24, some 0⟩ =
      (if (some 24 : Option Nat) = some 53 then DType.Float64 else DType.Float32)
        false :=
  float_precision_disambiguation
    ⟨"x", "float", "YES", some 53, none, none⟩
    ⟨false, 1, "y", false, 62, "float", 4, some 24, some 0⟩ rfl rfl

/-! ## Claim C5 (confirmed) -/

/-- C5: `create_table` with neither a source object nor a schema raises a
validation error, and zero statements are issued to the driver on this
path. -/
theorem create_table_requires_obj_or_schema (req : CreateTableReq)
    (current_database temp_name : String)
    (h1 : req.obj = none) (h2 : req.schema = none) :
    create_table req current_database temp_name =
      .error (.validationError "Either obj or schema must be specified") ∧
    issuedStmts (create_table req current_database temp_name) = [] := by
  unfold create_table issuedStmts
  simp [h1, h2]

/-- C5 witness: a request with neither obj nor schema errors out with no
statements issued. -/
theorem create_table_requires_obj_or_schema_witness :
    create_table ⟨"t", none, [], none, none, false, false⟩ "dbo" "tmp" =
      .error (.validationError "Either obj or schema must be specified") ∧
    issuedStmts (create_table ⟨"t", none, [], none, none, false, false⟩ "dbo" "tmp")
      = [] :=
  create_table_requires_obj_or_schema ⟨"t", none, [], none, none, false, false⟩
    "dbo" "tmp" rfl rfl

/-! ## Claim C6 (confirmed) -/

/-- C6: whenever the provisional type parsed from the reported type string is
a Decimal variant, the inferred type's precision and scale are overwritten
from the metadata row (numeric precision/scale on the table path, the
procedure's precision/scale on the query path); whenever it is a Timestamp
variant, the scale is overwritten from the row's datetime precision (table
path) or the procedure's scale field (query path). -/
theorem decimal_timestamp_overwrite :
    (∀ (r : MetaRow) (p s : Option Nat) (nb : Bool),
      from_string r.data_type (r.is_nullable == "YES") = .Decimal p s nb →
      processMetaRow r = .Decimal r.numeric_precision r.numeric_scale nb) ∧
    (∀ (r : MetaRow) (s : Option Nat) (nb : Bool),
      from_string r.data_type (r.is_nullable == "YES") = .Timestamp s nb →
      processMetaRow r = .Timestamp r.datetime_precision nb) ∧
    (∀ (q : QueryRow) (p s : Option Nat) (nb : Bool),
      from_string q.system_type_name q.is_nullable = .Decimal p s nb →
      processQueryRow q = .Decimal q.precision q.scale nb) ∧
    (∀ (q : QueryRow) (s : Option Nat) (nb : Bool),
      from_string q.system_type_name q.is_nullable = .Timestamp s nb →
      processQueryRow q = .Timestamp q.scale nb) := by
  refine ⟨?_, ?_, ?_, ?_⟩
  · intro r p s nb h
    unfold processMetaRow
    rw [if_neg (by simp [beq_false_of_ne (decimal_from_string_ne_float h)]), h]
    simp [DType.is_decimal, DType.copyDecimal]
  · intro r s nb h
    unfold processMetaRow
    rw [if_neg (by simp [beq_false_of_ne (timestamp_from_string_ne_float h)]), h]
    simp [DType.is_decimal, DType.is_timestamp, DType.copyTimestampScale]
  · intro q p s nb h
    unfold processQueryRow
    rw [if_neg (by simp [beq_false_of_ne (decimal_from_string_ne_float h)]), h]
    simp [DType.is_decimal, DType.copyDecimal]
  · intro q s nb h
    unfold processQueryRow
    rw [if_neg (by simp [beq_false_of_ne (timestamp_from_string_ne_float h)]), h]
    simp [DType.is_decimal, DType.is_timestamp, DType.copyTimestampScale]

/-- C6 witness: a decimal(10,2) table row, a datetime2(7) table row, a
decimal query row and a datetime2 query row all get their precision/scale
overwritten from the metadata. -/
theorem decimal_timestamp_overwrite_witness :
    processMetaRow ⟨"d", "decimal", "YES", some 10, some 2, none⟩ =
      .Decimal (some 10) (some 2) true ∧
    processMetaRow ⟨"t", "datetime2", "NO", none, none, some 7⟩ =
      .Timestamp (some 7) false ∧
    processQueryRow ⟨false, 1, "d", true, 106, "decimal", 9, some 12, some 3⟩ =
      .Decimal (some 12) (some 3) true ∧
    processQueryRow ⟨false, 2, "t", true, 42, "datetime2", 8, some 27, some 7⟩ =
      .Timestamp (some 7) true :=
  ⟨decimal_timestamp_overwrite.1 ⟨"d", "decimal", "YES", some 10, some 2, none⟩
      none none true rfl,
   decimal_timestamp_overwrite.2.1 ⟨"t", "datetime2", "NO", none, none, some 7⟩
      none false rfl,
   decimal_timestamp_overwrite.2.2.1
      ⟨false, 1, "d", true, 106, "decimal", 9, some 12, some 3⟩ none none true rfl,
   decimal_timestamp_overwrite.2.2.2
      ⟨false, 2, "t", true, 42, "datetime2", 8, some 27, some 7⟩ none true rfl⟩

/-! ## Claim C7 (confirmed) -/

/-- C7: in every branch of the inference algorithm, including the
float-disambiguation rewrite, the nullable flag of each inferred column type
equals the source row's nullable flag exactly, on both entry points; at the
schema level, every column in the inferred schema takes its nullable flag
from a source row of that name. -/
theorem infer_schema_preserves_nullable :
    (∀ r : MetaRow, (processMetaRow r).nullable = (r.is_nullable == "YES")) ∧
    (∀ q : QueryRow, (processQueryRow q).nullable = q.is_nullable) ∧
    (∀ (meta : List MetaRow) (k : String) (t : DType),
      (k, t) ∈ inferMeta meta →
      ∃ r, r ∈ meta ∧ r.column_name = k ∧
        t.nullable = (r.is_nullable == "YES")) ∧
    (∀ (rows : List QueryRow) (k : String) (t : DType),
      (k, t) ∈ inferQuery rows →
      ∃ q, q ∈ rows ∧ q.name = k ∧ t.nullable = q.is_nullable) := by
  refine ⟨processMetaRow_nullable, processQueryRow_nullable, ?_, ?_⟩
  · intro meta k t h
    rcases mem_foldl_dictInsert MetaRow.column_name processMetaRow meta [] (k, t) h
      with hnil | ⟨r, hr, he⟩
    · cases hnil
    · rcases Prod.mk.injEq .. ▸ he with ⟨hk, ht⟩
      exact ⟨r, hr, hk.symm, ht ▸ processMetaRow_nullable r⟩
  · intro rows k t h
    rcases mem_foldl_dictInsert QueryRow.name processQueryRow (sortRows rows) []
        (k, t) h with hnil | ⟨q, hq, he⟩
    · cases hnil
    · rcases Prod.mk.injEq .. ▸ he with ⟨hk, ht⟩
      refine ⟨q, ?_, hk.symm, ht ▸ processQueryRow_nullable q⟩
      exact (List.Perm.mem_iff (List.perm_insertionSort ordLE rows)).mp hq

/-- C7 witness: the schema-level statements applied to singleton inputs with
a nullable and a non-nullable column. -/
theorem infer_schema_preserves_nullable_witness :
    (∃ r, r ∈ [(⟨"a", "int", "YES", none, none, none⟩ : MetaRow)] ∧
      r.column_name = "a" ∧
      (DType.Int32 true).nullable = (r.is_nullable == "YES")) ∧
    (∃ q, q ∈ [(⟨false, 1, "b", false, 56, "int", 4, some 10, some 0⟩ : QueryRow)] ∧
      q.name = "b" ∧ (DType.Int32 false).nullable = q.is_nullable) :=
  ⟨infer_schema_preserves_nullable.2.2.1
      [⟨"a", "int", "YES", none, none, none⟩] "a" (DType.Int32 true) (by decide),
   infer_schema_preserves_nullable.2.2.2
      [⟨false, 1, "b", false, 56, "int", 4, some 10, some 0⟩] "b"
      (DType.Int32 false) (by decide)⟩

/-! ## Claim C4 (confirmed) -/

/-- C4: the statement-executing wrappers commit on success; on any raised
error they roll back the connection (uncommitted statements discarded,
committed ones untouched) and re-raise the very same error value — no
wrapping, no retry, no partial result. Stated for `begin` (through which all
context-managed execution routes) and for `raw_sql`. -/
theorem execute_commits_or_rolls_back {ε α : Type}
    (body : Conn → Conn × Except ε α) (driver : Stmt → Except ε Unit)
    (c : Conn) (q : Stmt) :
    (∀ c' a, body c = (c', .ok a) → begin body c = (c'.commit, .ok a)) ∧
    (∀ c' e, body c = (c', .error e) → begin body c = (c'.rollback, .error e)) ∧
    (driver q = .ok () →
      raw_sql driver c q = (⟨c.committed ++ (c.pending ++ [q]), []⟩, .ok ())) ∧
    (∀ e, driver q = .error e →
      raw_sql driver c q = (⟨c.committed, []⟩, .error e)) := by
  refine ⟨?_, ?_, ?_, ?_⟩
  · intro c' a h
    unfold begin
    rw [h]
  · intro c' e h
    unfold begin
    rw [h]
  · intro h
    unfold raw_sql cursorExecute
    rw [h]
    rfl
  · intro e h
    unfold raw_sql cursorExecute
    rw [h]
    rfl

/-- C4 witness: on a concrete connection with one pending statement, a
succeeding body commits, a failing body rolls back re-raising its error, and
likewise for `raw_sql` against an accepting and a rejecting driver. -/
theorem execute_commits_or_rolls_back_witness :
    begin (fun c => (c, (Except.ok 7 : Except String Nat)))
        ⟨[], [Stmt.dropIfExists "p"]⟩ =
      ((⟨[], [Stmt.dropIfExists "p"]⟩ : Conn).commit, Except.ok 7) ∧
    begin (fun c => (c, (Except.error "boom" : Except String Nat)))
        ⟨[], [Stmt.dropIfExists "p"]⟩ =
      ((⟨[], [Stmt.dropIfExists "p"]⟩ : Conn).rollback, Except.error "boom") ∧
    raw_sql (fun _ => (Except.ok () : Except String Unit))
        ⟨[], [Stmt.dropIfExists "p"]⟩ (Stmt.dropIfExists "q") =
      (⟨[] ++ ([Stmt.dropIfExists "p"] ++ [Stmt.dropIfExists "q"]), []⟩,
        Except.ok ()) ∧
    raw_sql (fun _ => (Except.error "denied" : Except String Unit))
        ⟨[], [Stmt.dropIfExists "p"]⟩ (Stmt.dropIfExists "q") =
      (⟨[], []⟩, Except.error "denied") :=
  ⟨(execute_commits_or_rolls_back (fun c => (c, Except.ok 7))
      (fun _ => Except.ok ()) ⟨[], [Stmt.dropIfExists "p"]⟩
      (Stmt.dropIfExists "q")).1 _ 7 rfl,
   (execute_commits_or_rolls_back (fun c => (c, Except.error "boom"))
      (fun _ => Except.ok ()) ⟨[], [Stmt.dropIfExists "p"]⟩
      (Stmt.dropIfExists "q")).2.1 _ "boom" rfl,
   (execute_commits_or_rolls_back (ε := String) (fun c => (c, Except.ok 0))
      (fun _ => Except.ok ()) ⟨[], [Stmt.dropIfExists "p"]⟩
      (Stmt.dropIfExists "q")).2.2.1 rfl,
   (execute_commits_or_rolls_back (fun c => (c, Except.ok 0))
      (fun _ => Except.error "denied") ⟨[], [Stmt.dropIfExists "p"]⟩
      (Stmt.dropIfExists "q")).2.2.2 "denied" rfl⟩

/-! ## Claim C9 (confirmed) -/

/-- C9: boolean round-trip across the cast-on-write and coerce-on-read pair:
every boolean-typed output column is in the conversions set wrapped at
compile time, and every driver representation of a written boolean value is
coerced back at row-fetch time to that very boolean — a true boolean, not an
integer or string representation. -/
theorem boolean_roundtrip :
    (∀ (schema : Schema) (k : String) (t : DType),
      (k, t) ∈ schema → t.is_boolean = true → k ∈ toSqlglotConversions schema) ∧
    (∀ (b nb : Bool) (v : Val), v ∈ driverReprs (castOnWrite b) →
      process_value v (.Boolean nb) = .vbool b) := by
  constructor
  · intro schema k t hmem hb
    exact List.mem_map.mpr ⟨(k, t), List.mem_filter.mpr ⟨hmem, hb⟩, rfl⟩
  · intro b nb v hv
    rcases List.mem_cons.mp hv with rfl | hv
    · cases b <;> rfl
    · rcases List.mem_singleton.mp hv with rfl
      cases b <;> rfl

/-- C9 witness: a boolean column is wrapped, and both the native-boolean and
the integer driver representation of a written `true` and `false` read back
as the same boolean. -/
theorem boolean_roundtrip_witness :
    "flag" ∈ toSqlglotConversions [("flag", DType.Boolean true)] ∧
    process_value (.vint (castOnWrite true)) (.Boolean true) = .vbool true ∧
    process_value (.vbool ((castOnWrite false) != 0)) (.Boolean true) =
      .vbool false :=
  ⟨boolean_roundtrip.1 [("flag", DType.Boolean true)] "flag" (DType.Boolean true)
      (by decide) rfl,
   boolean_roundtrip.2 true true (.vint (castOnWrite true)) (by decide),
   boolean_roundtrip.2 false true (.vbool ((castOnWrite false) != 0)) (by decide)⟩

/-! ## Claim C10 (confirmed) -/

/-- C10: registering the same in-memory dataset twice under the same
generated relation name is idempotent — the first call issues exactly one
create and one insert statement, and the second call, seeing the relation
name already listed, issues no statements at all. -/
theorem register_in_memory_idempotent (tables : List String) (op : MemTableOp)
    (hnull : (op.schema.filter (fun p => p.2.is_null)).isEmpty = true)
    (hfresh : op.name ∉ tables) (hdata : op.data.isEmpty = false) :
    register_in_memory_table tables op =
      .ok (tables ++ [op.name],
        [Stmt.createTable op.name (columnDefs op.schema),
         Stmt.insertMany op.name (op.schema.map Prod.fst) op.data]) ∧
    register_in_memory_table (tables ++ [op.name]) op =
      .ok (tables ++ [op.name], []) := by
  constructor
  · unfold register_in_memory_table
    rw [hnull, hdata]
    simp [hfresh]
  · unfold register_in_memory_table
    rw [hnull]
    simp

/-- C10 witness: a one-column, one-row in-memory table registered twice
against an initially empty listing. -/
theorem register_in_memory_idempotent_witness :
    register_in_memory_table []
        ⟨"ibis_memtable_0", [("x", DType.Int32 true)], [[.vint 1]]⟩ =
      .ok ([] ++ ["ibis_memtable_0"],
        [Stmt.createTable "ibis_memtable_0"
          (columnDefs [("x", DType.Int32 true)]),
         Stmt.insertMany "ibis_memtable_0"
          ([(("x" : String), DType.Int32 true)].map Prod.fst) [[.vint 1]]]) ∧
    register_in_memory_table ([] ++ ["ibis_memtable_0"])
        ⟨"ibis_memtable_0", [("x", DType.Int32 true)], [[.vint 1]]⟩ =
      .ok ([] ++ ["ibis_memtable_0"], []) :=
  register_in_memory_idempotent []
    ⟨"ibis_memtable_0", [("x", DType.Int32 true)], [[.vint 1]]⟩
    rfl (by decide) rfl

/-! ## Catalog-state lemmas for the overwrite protocol -/

theorem dbExists_cons_false {p : String × List (List Val)} {t : DB} {k : String}
    (h : dbExists (p :: t) k = false) :
    (p.1 == k) = false ∧ dbExists t k = false := by
  unfold dbExists at h
  rw [List.any_cons] at h
  exact Bool.or_eq_false_iff.mp h

theorem dbExists_append (l1 l2 : DB) (k : String) :
    dbExists (l1 ++ l2) k = (dbExists l1 k || dbExists l2 k) := by
  unfold dbExists
  exact List.any_append

theorem dbLookup_append_right {l1 : DB} (l2 : DB) {k : String}
    (h : dbExists l1 k = false) : dbLookup (l1 ++ l2) k = dbLookup l2 k := by
  induction l1 with
  | nil => rfl
  | cons p t ih =>
    rcases dbExists_cons_false h with ⟨h1, h2⟩
    rw [List.cons_append]
    have hstep : dbLookup (p :: (t ++ l2)) k = dbLookup (t ++ l2) k := by
      simp only [dbLookup, h1]
      simp
    rw [hstep]
    exact ih h2

theorem dbAppendRows_append (l1 l2 : DB) (k : String) (rows : List (List Val)) :
    dbAppendRows (l1 ++ l2) k rows =
      dbAppendRows l1 k rows ++ dbAppendRows l2 k rows := by
  unfold dbAppendRows
  exact List.map_append _ l1 l2

theorem dbAppendRows_of_not_exists {db : DB} {k : String}
    (rows : List (List Val)) (h : dbExists db k = false) :
    dbAppendRows db k rows = db := by
  induction db with
  | nil => rfl
  | cons p t ih =>
    rcases dbExists_cons_false h with ⟨h1, h2⟩
    unfold dbAppendRows at ih ⊢
    rw [List.map_cons, ih h2, h1]
    simp

theorem dbExists_filter_false {db : DB} {k : String}
    (p : String × List (List Val) → Bool) (h : dbExists db k = false) :
    dbExists (db.filter p) k = false := by
  unfold dbExists at h ⊢
  rw [List.any_eq_false] at h ⊢
  intro a ha
  exact h a (List.mem_filter.mp ha).1

theorem dbExists_dbRemove_false {db : DB} {j k : String}
    (h : dbExists db k = false) : dbExists (dbRemove db j) k = false :=
  dbExists_filter_false _ h

theorem dbExists_dbRemove_self (db : DB) (k : String) :
    dbExists (dbRemove db k) k = false := by
  unfold dbExists dbRemove
  rw [List.any_eq_false]
  intro a ha
  have hp := (List.mem_filter.mp ha).2
  simp only [Bool.not_eq_eq_eq_not, Bool.not_true] at hp
  simp [hp]

theorem dbRemove_append (l1 l2 : DB) (k : String) :
    dbRemove (l1 ++ l2) k = dbRemove l1 k ++ dbRemove l2 k := by
  unfold dbRemove
  simp

/-! ## Claim C1 (confirmed) -/

/-- C1: `create_table` with overwrite=true and a source object issues
exactly the sequence: create the table under the generated temporary name,
insert the source data into it, drop the final-name table if it exists, and
rename the temporary table to the final name; executing that sequence on a
catalog where the final name exists and the generated name is fresh succeeds,
after which the final-name table holds exactly the new data and no table
under the generated temporary name persists. -/
theorem create_table_overwrite_replaces (db : DB) (req : CreateTableReq)
    (current_database temp_name : String) (data : List (List Val))
    (stmts : List Stmt)
    (hov : req.overwrite = true)
    (hobj : req.obj = some data)
    (hdb : req.database = none)
    (_hexists : dbExists db req.name = true)
    (hfresh : dbExists db temp_name = false)
    (hne : temp_name ≠ req.name)
    (hres : create_table req current_database temp_name = .ok stmts) :
    stmts = [Stmt.createTable temp_name (columnDefs (req.schema.getD req.obj_schema)),
             Stmt.insertFrom temp_name data,
             Stmt.dropIfExists req.name,
             Stmt.rename temp_name req.name] ∧
    ∃ db', execStmts db stmts = .ok db' ∧
      dbLookup db' req.name = some data ∧
      dbExists db' temp_name = false := by
  have hbne : (temp_name == req.name) = false := beq_false_of_ne hne
  have hstmts : stmts =
      [Stmt.createTable temp_name (columnDefs (req.schema.getD req.obj_schema)),
       Stmt.insertFrom temp_name data,
       Stmt.dropIfExists req.name,
       Stmt.rename temp_name req.name] := by
    unfold create_table at hres
    rw [hobj, hdb, hov] at hres
    simpa using hres.symm
  refine ⟨hstmts, ?_⟩
  -- the intermediate catalog states of the four-statement protocol
  have e1 : execStmt db
      (Stmt.createTable temp_name (columnDefs (req.schema.getD req.obj_schema)))
      = .ok (db ++ [(temp_name, [])]) := by
    simp [execStmt, hfresh]
  have hex1 : dbExists (db ++ [(temp_name, [])]) temp_name = true := by
    rw [dbExists_append, hfresh]
    simp [dbExists]
  have happ : dbAppendRows (db ++ [(temp_name, [])]) temp_name data =
      db ++ [(temp_name, data)] := by
    rw [dbAppendRows_append, dbAppendRows_of_not_exists data hfresh]
    simp [dbAppendRows]
  have e2 : execStmt (db ++ [(temp_name, [])])
      (Stmt.insertFrom temp_name data) = .ok (db ++ [(temp_name, data)]) := by
    simp [execStmt, hex1, happ]
  have hdrop : dbRemove (db ++ [(temp_name, data)]) req.name =
      dbRemove db req.name ++ [(temp_name, data)] := by
    rw [dbRemove_append]
    simp [dbRemove, hbne]
  have e3 : execStmt (db ++ [(temp_name, data)])
      (Stmt.dropIfExists req.name) =
      .ok (dbRemove db req.name ++ [(temp_name, data)]) := by
    simp [execStmt, hdrop]
  have hfresh3 : dbExists (dbRemove db req.name) temp_name = false :=
    dbExists_dbRemove_false hfresh
  have hlook3 : dbLookup (dbRemove db req.name ++ [(temp_name, data)])
      temp_name = some data := by
    rw [dbLookup_append_right _ hfresh3]
    simp [dbLookup]
  have hname3 : dbExists (dbRemove db req.name ++ [(temp_name, data)])
      req.name = false := by
    rw [dbExists_append, dbExists_dbRemove_self]
    simp [dbExists, hbne]
  have hrem3 : dbRemove (dbRemove db req.name ++ [(temp_name, data)])
      temp_name = dbRemove (dbRemove db req.name) temp_name := by
    rw [dbRemove_append]
    simp [dbRemove]
  have e4 : execStmt (dbRemove db req.name ++ [(temp_name, data)])
      (Stmt.rename temp_name req.name) =
      .ok (dbRemove (dbRemove db req.name) temp_name ++ [(req.name, data)]) := by
    simp [execStmt, hlook3, hname3, hrem3]
  refine ⟨dbRemove (dbRemove db req.name) temp_name ++ [(req.name, data)],
    ?_, ?_, ?_⟩
  · rw [hstmts]
    simp [execStmts, e1, e2, e3, e4]
  · have hnone : dbExists (dbRemove (dbRemove db req.name) temp_name)
        req.name = false :=
      dbExists_dbRemove_false (dbExists_dbRemove_self db req.name)
    rw [dbLookup_append_right _ hnone]
    simp [dbLookup]
  · rw [dbExists_append, dbExists_dbRemove_self]
    simp [dbExists, beq_false_of_ne (Ne.symm hne)]

/-- C1 witness: overwriting table "t" (holding one old row) with new data
through temporary name "tmp1": the protocol statements execute successfully,
"t" ends up holding exactly the new row, and "tmp1" is gone. -/
theorem create_table_overwrite_replaces_witness :
    ([Stmt.createTable "tmp1"
        (columnDefs ((some [("x", DType.Int32 true)] : Option Schema).getD [])),
      Stmt.insertFrom "tmp1" [[.vint 2]],
      Stmt.dropIfExists "t",
      Stmt.rename "tmp1" "t"] =
      [Stmt.createTable "tmp1"
        (columnDefs ((some [("x", DType.Int32 true)] : Option Schema).getD [])),
       Stmt.insertFrom "tmp1" [[.vint 2]],
       Stmt.dropIfExists "t",
       Stmt.rename "tmp1" "t"]) ∧
    ∃ db', execStmts [("t", [[.vint 1]])]
        [Stmt.createTable "tmp1"
          (columnDefs ((some [("x", DType.Int32 true)] : Option Schema).getD [])),
         Stmt.insertFrom "tmp1" [[.vint 2]],
         Stmt.dropIfExists "t",
         Stmt.rename "tmp1" "t"] = .ok db' ∧
      dbLookup db' "t" = some [[.vint 2]] ∧
      dbExists db' "tmp1" = false := by
  have h := create_table_overwrite_replaces [("t", [[.vint 1]])]
    ⟨"t", some [[.vint 2]], [("x", DType.Int32 true)],
      some [("x", DType.Int32 true)], none, false, true⟩
    "dbo" "tmp1" [[.vint 2]] _ rfl rfl rfl (by decide) (by decide) (by decide) rfl
  exact ⟨h.1 ▸ rfl, h.2⟩

/-! ## Sorting lemmas for query introspection -/

theorem sortRows_perm (rows : List QueryRow) : (sortRows rows).Perm rows :=
  List.perm_insertionSort ordLE rows

theorem sortRows_sorted (rows : List QueryRow) :
    List.Sorted ordLE (sortRows rows) :=
  List.sorted_insertionSort ordLE rows

theorem sortRows_nodup_ord {rows : List QueryRow}
    (hord : (rows.map QueryRow.column_ordinal).Nodup) :
    ((sortRows rows).map QueryRow.column_ordinal).Nodup :=
  ((sortRows_perm rows).map QueryRow.column_ordinal).nodup_iff.mpr hord

theorem sortRows_strict {rows : List QueryRow}
    (hord : (rows.map QueryRow.column_ordinal).Nodup) :
    (sortRows rows).Pairwise
      (fun a b => a.column_ordinal < b.column_ordinal) := by
  have hs : (sortRows rows).Pairwise ordLE := sortRows_sorted rows
  have hne : (sortRows rows).Pairwise
      (fun a b => a.column_ordinal ≠ b.column_ordinal) :=
    List.pairwise_map.mp (sortRows_nodup_ord hord)
  exact (hs.and hne).imp (fun h => Nat.lt_of_le_of_ne h.1 h.2)

theorem sortRows_eq_of_perm (rows rows' : List QueryRow)
    (hperm : rows.Perm rows')
    (hord : (rows.map QueryRow.column_ordinal).Nodup) :
    sortRows rows = sortRows rows' := by
  haveI : IsAntisymm QueryRow (fun a b => a.column_ordinal < b.column_ordinal) :=
    ⟨fun a b h1 h2 => absurd (Nat.lt_trans h1 h2) (Nat.lt_irrefl _)⟩
  have hord' : (rows'.map QueryRow.column_ordinal).Nodup :=
    (hperm.map QueryRow.column_ordinal).nodup_iff.mp hord
  exact List.eq_of_perm_of_sorted
    ((sortRows_perm rows).trans (hperm.trans (sortRows_perm rows').symm))
    (sortRows_strict hord) (sortRows_strict hord')

theorem foldl_dictInsert_nodup {β : Type} (key : β → String) (val : β → DType) :
    ∀ (l : List β) (acc : Schema),
      (l.map key).Nodup →
      (∀ p ∈ acc, ∀ r ∈ l, p.1 ≠ key r) →
      l.foldl (fun m r => dictInsert m (key r) (val r)) acc =
        acc ++ l.map (fun r => (key r, val r))
  | [], acc, _, _ => by simp
  | r :: rest, acc, hnodup, hdisj => by
    rw [List.foldl_cons]
    have hany : acc.any (fun p => p.1 == key r) = false := by
      rw [List.any_eq_false]
      intro p hp
      simpa using hdisj p hp r (List.mem_cons_self r rest)
    have hstep : dictInsert acc (key r) (val r) = acc ++ [(key r, val r)] := by
      unfold dictInsert
      rw [hany]
      simp
    rw [List.map_cons, List.nodup_cons] at hnodup
    have hrest := foldl_dictInsert_nodup key val rest (acc ++ [(key r, val r)])
      hnodup.2 (by
        intro p hp r' hr'
        rcases List.mem_append.mp hp with hpa | hps
        · exact hdisj p hpa r' (List.mem_cons_of_mem _ hr')
        · rcases List.mem_singleton.mp hps with rfl
          intro hk
          apply hnodup.1
          have hk' : key r = key r' := hk
          rw [hk']
          exact List.mem_map_of_mem key hr')
    rw [hstep, hrest]
    simp

theorem inferQuery_eq_map {rows : List QueryRow}
    (hname : (rows.map QueryRow.name).Nodup) :
    inferQuery rows =
      (sortRows rows).map (fun q => (q.name, processQueryRow q)) := by
  unfold inferQuery
  have hnamesort : ((sortRows rows).map QueryRow.name).Nodup :=
    ((sortRows_perm rows).map QueryRow.name).nodup_iff.mpr hname
  have h := foldl_dictInsert_nodup QueryRow.name processQueryRow (sortRows rows)
    [] hnamesort (by intro p hp; cases hp)
  simpa using h

theorem find?_name_of_nodup {rows : List QueryRow}
    (hname : (rows.map QueryRow.name).Nodup) {r : QueryRow} (hr : r ∈ rows) :
    rows.find? (fun x => x.name == r.name) = some r := by
  induction rows with
  | nil => cases hr
  | cons h t ih =>
    rw [List.map_cons, List.nodup_cons] at hname
    rcases List.mem_cons.mp hr with rfl | hrt
    · simp [List.find?]
    · have hne : (h.name == r.name) = false := by
        refine beq_false_of_ne (fun he => hname.1 ?_)
        rw [he]
        exact List.mem_map_of_mem QueryRow.name hrt
      rw [List.find?_cons, hne]
      exact ih hname.2 hrt

theorem ordinalFor_eq {rows : List QueryRow}
    (hname : (rows.map QueryRow.name).Nodup) {r : QueryRow} (hr : r ∈ rows) :
    ordinalFor rows r.name = r.column_ordinal := by
  unfold ordinalFor
  rw [find?_name_of_nodup hname hr]
  rfl

/-! ## Claim C8 (confirmed) -/

/-- C8: query introspection processes the describe-procedure's rows in
ascending order of the reported column ordinal regardless of arrival order —
any permutation of the fetched rows yields the same schema, and the output
key order follows strictly increasing ordinals (stated for well-formed
result sets: distinct ordinals and distinct column names). -/
theorem query_rows_processed_in_ordinal_order (rows rows' : List QueryRow)
    (hperm : rows.Perm rows')
    (hord : (rows.map QueryRow.column_ordinal).Nodup)
    (hname : (rows.map QueryRow.name).Nodup) :
    get_schema_using_query rows = get_schema_using_query rows' ∧
    ((inferQuery rows).map Prod.fst).Pairwise
      (fun a b => ordinalFor rows a < ordinalFor rows b) := by
  constructor
  · unfold get_schema_using_query inferQuery
    rw [sortRows_eq_of_perm rows rows' hperm hord]
  · rw [inferQuery_eq_map hname, List.map_map]
    have hcomp : (Prod.fst ∘ fun q : QueryRow => (q.name, processQueryRow q)) =
        QueryRow.name := rfl
    rw [hcomp, List.pairwise_map]
    refine List.Pairwise.imp_of_mem ?_ (sortRows_strict hord)
    intro a b ha hb hlt
    rw [ordinalFor_eq hname ((sortRows_perm rows).mem_iff.mp ha),
        ordinalFor_eq hname ((sortRows_perm rows).mem_iff.mp hb)]
    exact hlt

/-- C8 witness: two rows arriving in descending ordinal order produce the
same schema as in ascending order, with output keys following the sorted
ordinals. -/
theorem query_rows_processed_in_ordinal_order_witness :
    get_schema_using_query
        [⟨false, 2, "b", true, 56, "int", 4, some 10, some 0⟩,
         ⟨false, 1, "a", true, 127, "bigint", 8, some 19, some 0⟩] =
      get_schema_using_query
        [⟨false, 1, "a", true, 127, "bigint", 8, some 19, some 0⟩,
         ⟨false, 2, "b", true, 56, "int", 4, some 10, some 0⟩] ∧
    ((inferQuery
        [⟨false, 2, "b", true, 56, "int", 4, some 10, some 0⟩,
         ⟨false, 1, "a", true, 127, "bigint", 8, some 19, some 0⟩]).map
        Prod.fst).Pairwise
      (fun a b =>
        ordinalFor
            [⟨false, 2, "b", true, 56, "int", 4, some 10, some 0⟩,
             ⟨false, 1, "a", true, 127, "bigint", 8, some 19, some 0⟩] a <
          ordinalFor
            [⟨false, 2, "b", true, 56, "int", 4, some 10, some 0⟩,
             ⟨false, 1, "a", true, 127, "bigint", 8, some 19, some 0⟩] b) :=
  query_rows_processed_in_ordinal_order
    [⟨false, 2, "b", true, 56, "int", 4, some 10, some 0⟩,
     ⟨false, 1, "a", true, 127, "bigint", 8, some 19, some 0⟩]
    [⟨false, 1, "a", true, 127, "bigint", 8, some 19, some 0⟩,
     ⟨false, 2, "b", true, 56, "int", 4, some 10, some 0⟩]
    (by decide) (by decide) (by decide)

end MSSQL
